/-
Verification of the n8n lead-export campaign module
(models/n8n_campaign.py and models/n8n_campaign_log.py).

The Python module is embedded shallowly:

* Odoo `False`-valued (unset) Char/Selection fields are `Option String`
  with `none` for unset; the Python truthiness test `not value` is
  `strFalsy` (unset or empty string).
* Python datetimes are `PyDatetime`: epoch seconds plus a
  timezone-awareness flag.  `datetime.utcnow().replace(tzinfo=pytz.UTC)`
  is aware; Odoo `Datetime` fields hold naive values, reject aware ones
  on write (`ValueError`), and comparing aware with naive raises
  `TypeError`.  Local times of day are minutes-of-day integers produced
  by the same `HH:MM` parsing the Python code performs with
  `value.split(":")` and `int(...)`.
* The external collaborators that the module calls are modelled with
  their documented behaviour: Odoo `search` filters the record table by
  the domain (an empty domain `[]` matches every record) in id order,
  `safe_eval` of the stored filter string is represented by the
  `Except` field `filter_eval` (its `.error` case is a raised
  evaluation exception), `pytz.timezone` raises on a name missing from
  the zone table, and `requests.Response.raise_for_status` raises
  exactly for status codes 400–599 with the message
  "<code> Client/Server Error: <reason> for url: <url>".
* Exception control flow is explicit: functions that can raise return
  `Except String _` or `Option _`, and the cron loop's per-campaign
  `try/except` turns any raised value into "leave this campaign's
  state unchanged".
-/
import Mathlib

set_option linter.unusedVariables false

namespace N8nLeadExport

/-! ## Data model -/

/-- Status selection of `n8n.campaign.log` (`pending`, `ok`, `error`). -/
inductive Status where
  | pending
  | ok
  | error
deriving DecidableEq, Repr

/-- A `crm.lead` record, restricted to the fields the module reads.
`email_from` is `none` when the field is unset in the database. -/
structure Lead where
  id : Nat
  name : String
  email_from : Option String
deriving DecidableEq, Repr

/-- A row of `n8n.campaign.log`.  `none` in an `Option` field is the
database NULL (Odoo `False`). -/
structure LogRow where
  campaign_id : Nat
  lead_id : Option Nat
  lead_odoo_id : Nat
  name : String
  email : String
  status : Status
  http_status : Option String
  message : Option String
  sent_at : Option Int
deriving DecidableEq, Repr

/-- An Odoo search domain over leads, as produced by `safe_eval` on the
campaign's `filter_domain` string: a list of leaf conditions, implicitly
conjoined (the plain-list form of Odoo domains).  The empty domain `[]`
places no condition and therefore matches every record. -/
def Domain : Type := List (Lead → Bool)

/-- A record of `n8n.campaign`, restricted to the fields the module
reads.  `filter_eval` is the result of `safe_eval(filter_domain or "[]")`:
`.ok d` when the stored string evaluates to the domain `d`, `.error e`
when evaluation raises with message `e` (`safe_eval` itself is outside
the module). -/
structure Campaign where
  id : Nat
  name : String
  target_model : Option String
  webhook_url : Option String
  filter_eval : Except String Domain
  is_active : Bool
  start_time_slot : Option String
  end_time_slot : Option String
  delay_seconds : Int
  next_run_at : Option Int

/-- Python truthiness test `not value` for an optional string field:
true when the field is unset (`False`) or the empty string. -/
def strFalsy : Option String → Bool
  | none => true
  | some s => s = ""

/-! ## Time parsing (`_time_to_minutes`) -/

/-- Digit run to a number; `none` when empty or a non-digit occurs
(the `ValueError` of Python `int`). -/
def digitsToNatAux : List Char → Nat → Option Nat
  | [], acc => some acc
  | c :: cs, acc =>
      if c.isDigit then digitsToNatAux cs (acc * 10 + (c.toNat - 48)) else none

/-- All-digit character list to a number, `none` on the empty list. -/
def digitsToNat (cs : List Char) : Option Nat :=
  match cs with
  | [] => none
  | _ => digitsToNatAux cs 0

/-- Python `int(...)` applied to one colon-separated component: an
optional minus sign followed by digits; anything else raises
(`none`). -/
def py_int (cs : List Char) : Option Int :=
  match cs with
  | '-' :: rest => (digitsToNat rest).map (fun n => -(n : Int))
  | _ => (digitsToNat cs).map (fun n => (n : Int))

/-- Python `value.split(":")` on the character list of the string. -/
def splitColon : List Char → List (List Char)
  | [] => [[]]
  | c :: cs =>
      let rest := splitColon cs
      if c = ':' then [] :: rest
      else
        match rest with
        | [] => [[c]]
        | g :: gs => (c :: g) :: gs

/-- `_time_to_minutes`: `None` for a falsy value, otherwise parse
`"HH:MM"` as `h * 60 + m`; any parse failure (wrong number of
components, non-integer component) is caught and gives `None`. -/
def time_to_minutes (value : Option String) : Option Int :=
  match value with
  | none => none
  | some s =>
      if s = "" then none
      else
        match (splitColon s.data).map py_int with
        | [some h, some m] => some (h * 60 + m)
        | _ => none

/-! ## Time-window check (`_is_within_schedule`) -/

/-- `_is_within_schedule`: decide whether the local time `HH:MM` string
is between `start_time_slot` and `end_time_slot`.

The result is `some b` for a normal return of `b`, and `none` when the
Python code would raise a `TypeError` (a set but unparseable slot makes
`start_min` or `end_min` the Python value `None`, and comparing `None`
with an `int` raises).  The chained comparison
`start_min <= now_min <= end_min` short-circuits, so `end_min` is only
touched when the first comparison succeeds. -/
def is_within_schedule (c : Campaign) (local_time_str : String) : Option Bool :=
  if strFalsy c.start_time_slot && strFalsy c.end_time_slot then
    some true
  else
    match time_to_minutes (some local_time_str) with
    | none => some true
    | some now_min =>
        let start_min : Option Int :=
          if !strFalsy c.start_time_slot then time_to_minutes c.start_time_slot
          else some 0
        let end_min : Option Int :=
          if !strFalsy c.end_time_slot then time_to_minutes c.end_time_slot
          else some (24 * 60 - 1)
        match start_min with
        | none => none
        | some s =>
            if s ≤ now_min then
              match end_min with
              | none => none
              | some e => some (now_min ≤ e)
            else
              some false

/-! ## Domain resolution and record selection -/

/-- Whether a lead satisfies a domain: every leaf condition holds.
The empty domain `[]` matches every record (Odoo semantics). -/
def domain_matches (d : Domain) (r : Lead) : Bool :=
  (d : List (Lead → Bool)).all (fun p => p r)

/-- Odoo `env[model].search(domain, order="id")` over the lead table:
the leads satisfying the domain.  The table `env` is taken to list the
leads in ascending-id order, so filtering preserves the search order. -/
def search_leads (env : List Lead) (d : Domain) : List Lead :=
  env.filter (domain_matches d)

/-- `_get_domain`: evaluate `filter_domain or "[]"`; any evaluation
exception is caught with a warning and the empty domain `[]` is
returned instead. -/
def get_domain (c : Campaign) : Domain :=
  match c.filter_eval with
  | .ok d => d
  | .error _ => ([] : List (Lead → Bool))

/-- `_get_target_records`: all records matching the campaign's filter,
ordered by id; an unset target model gives the empty recordset. -/
def get_target_records (env : List Lead) (c : Campaign) : List Lead :=
  if strFalsy c.target_model then [] else search_leads env (get_domain c)

/-! ## Log lookup and next-record selection -/

/-- `self.log_ids`: the log rows that belong to the campaign. -/
def log_ids (c : Campaign) (logs : List LogRow) : List LogRow :=
  logs.filter (fun l => l.campaign_id == c.id)

/-- `set(self.log_ids.mapped("lead_id").ids)`: the ids of leads that
already have a log row for this campaign, with NULL `lead_id`
references (deleted leads) dropped.  No status condition is applied. -/
def sent_lead_ids (c : Campaign) (logs : List LogRow) : List Nat :=
  (log_ids c logs).filterMap LogRow.lead_id

/-- `_get_next_lead_to_send`: the first matching record whose id is not
among the already-logged lead ids; `None` when every matching record is
logged or there is no matching record. -/
def get_next_lead_to_send (env : List Lead) (c : Campaign) (logs : List LogRow) :
    Option Lead :=
  (get_target_records env c).find? (fun r => !(sent_lead_ids c logs).contains r.id)

/-! ## The HTTP attempt (`_send_lead_to_n8n`) -/

/-- Outcome of `requests.post(webhook_url, json=payload, timeout=20)`:
either a response was received (with its status code, body text,
reason phrase and final url), or the call raised before any response
(timeout, connection failure, ...) with exception text `emsg`. -/
inductive HttpOutcome where
  | resp (status_code : Nat) (text : String) (reason : String) (url : String)
  | exc (emsg : String)

/-- `requests.Response.raise_for_status`: `some message` when it raises
an `HTTPError` (exactly for status codes 400–599), `none` when it
returns normally (all other codes, 3xx included). -/
def raise_for_status_error (status_code : Nat) (reason url : String) : Option String :=
  if 400 ≤ status_code ∧ status_code < 500 then
    some (s!"{status_code} Client Error: {reason} for url: {url}")
  else if 500 ≤ status_code ∧ status_code < 600 then
    some (s!"{status_code} Server Error: {reason} for url: {url}")
  else none

/-- Python string slicing `s[:n]` (by code points). -/
def py_truncate (s : String) (n : Nat) : String :=
  ⟨s.data.take n⟩

/-- The JSON payload record `{"id": ..., "name": ..., "email": ...}`. -/
structure PayloadRecord where
  id : Nat
  name : String
  email : String
deriving DecidableEq, Repr

/-- The JSON payload posted to the webhook. -/
structure Payload where
  campaign_id : Nat
  campaign_name : String
  target_model : String
  count : Nat
  records : List PayloadRecord
deriving DecidableEq, Repr

/-- The payload built by `_send_lead_to_n8n` for one record. -/
def build_payload (c : Campaign) (record : Lead) : Payload :=
  { campaign_id := c.id
    campaign_name := c.name
    target_model := c.target_model.getD ""
    count := 1
    records := [{ id := record.id
                  name := record.name
                  email := record.email_from.getD "" }] }

/-- The log row as created before the HTTP attempt: status `pending`,
the record's snapshot fields, nothing else set. -/
def pending_row (c : Campaign) (record : Lead) : LogRow :=
  { campaign_id := c.id
    lead_id := some record.id
    lead_odoo_id := record.id
    name := record.name
    email := record.email_from.getD ""
    status := .pending
    http_status := none
    message := none
    sent_at := none }

/-- The `(status, http_status, msg)` triple holding after the
`try/except` block of `_send_lead_to_n8n`:

* response received, `raise_for_status` silent → status `ok`, message
  the body truncated to 1000 characters;
* response received, `raise_for_status` raises → status `error`,
  message the exception text (which replaces the body text bound
  earlier), `http_status` still the received code;
* the post itself raised → status `error`, message the exception text,
  `http_status` still `None` (it was never assigned). -/
def attempt_outcome (http : HttpOutcome) : Status × Option Nat × String :=
  match http with
  | .resp code text reason url =>
      let msg0 := if text ≠ "" then py_truncate text 1000 else ""
      match raise_for_status_error code reason url with
      | none => (.ok, some code, msg0)
      | some emsg => (.error, some code, emsg)
  | .exc emsg => (.error, none, emsg)

/-- The log row after the single `log.write` that records the outcome:
status and message from the attempt, `http_status` rendered with `str`
(or NULL), and the completion timestamp. -/
def written_row (c : Campaign) (record : Lead) (http : HttpOutcome)
    (now : Int) : LogRow :=
  { pending_row c record with
    status := (attempt_outcome http).1
    http_status := ((attempt_outcome http).2.1).map toString
    message := some (attempt_outcome http).2.2
    sent_at := some now }

/-- `_send_lead_to_n8n`: send one lead and create/update its log row.

`.error msg` is a raised `UserError` (missing webhook URL or
unsupported target model) — it is raised before the log row is
created.  `.ok (pending, final)` is the normal path: `pending` is the
row as created and `final` the same row after its one update. -/
def send_lead_to_n8n (c : Campaign) (record : Lead) (http : HttpOutcome)
    (now : Int) : Except String (LogRow × LogRow) :=
  if strFalsy c.webhook_url then
    .error "n8n Webhook URL is required."
  else if c.target_model ≠ some "crm.lead" then
    .error "Only CRM Lead model is supported at this time."
  else
    .ok (pending_row c record, written_row c record http now)

/-! ## Timezone handling (`_get_user_local_time`) -/

/-- One entry of the timezone table, reduced to a fixed UTC offset (the
claims do not exercise daylight-saving transitions). -/
structure TzInfo where
  name : String
  utc_offset_minutes : Int
deriving DecidableEq, Repr

/-- `pytz.timezone(tz_name)`: look the name up in the zone table; an
unknown name raises `UnknownTimeZoneError` (modelled as `.error`). -/
def pytz_timezone (db : List TzInfo) (tz_name : String) : Except String TzInfo :=
  match db.find? (fun t => t.name == tz_name) with
  | some t => .ok t
  | none => .error (s!"UnknownTimeZoneError: {tz_name}")

/-- `f"{n:02d}"` for `0 ≤ n < 100`. -/
def two_digit (n : Nat) : String :=
  if n < 10 then "0" ++ toString n else toString n

/-- A Python `datetime` value: the instant in epoch seconds together
with whether the object carries a `tzinfo` (timezone-aware).  The
distinction matters: Odoo `Datetime` fields hold naive values only,
and Python refuses to compare aware with naive. -/
structure PyDatetime where
  seconds : Int
  aware : Bool
deriving DecidableEq, Repr

/-- `dt + timedelta(seconds=s)`: addition shifts the instant and keeps
the `tzinfo` (awareness) of the left operand. -/
def py_datetime_add_seconds (dt : PyDatetime) (s : Int) : PyDatetime :=
  { dt with seconds := dt.seconds + s }

/-- Python `<` between datetimes: comparing an offset-aware and an
offset-naive datetime raises `TypeError`; otherwise it compares the
instants. -/
def py_datetime_lt (a b : PyDatetime) : Except String Bool :=
  if a.aware != b.aware then
    .error "TypeError: cannot compare offset-naive and offset-aware datetimes"
  else
    .ok (decide (a.seconds < b.seconds))

/-- Writing a Python datetime into an Odoo `Datetime` field
(`fields.Datetime.to_datetime`, reached from `convert_to_cache` on
assignment): a timezone-aware value is rejected with
`ValueError("Datetime field expects a naive datetime: ...")` (the real
message also prints the value); a naive value is stored. -/
def odoo_datetime_write (v : PyDatetime) : Except String Int :=
  if v.aware then
    .error "ValueError: Datetime field expects a naive datetime"
  else
    .ok v.seconds

/-- `_get_user_local_time`: resolve the environment user's timezone
(`user.tz or "UTC"`), convert the current UTC instant into it, and
return the `"HH:MM"` local string together with the UTC instant.  The
returned instant is `datetime.utcnow().replace(tzinfo=pytz.UTC)` — a
timezone-AWARE datetime.  An unknown timezone name propagates the
`pytz` exception. -/
def get_user_local_time (db : List TzInfo) (user_tz : Option String)
    (now_utc : Int) : Except String (String × PyDatetime) :=
  let tz_name := if strFalsy user_tz then "UTC" else user_tz.getD ""
  match pytz_timezone db tz_name with
  | .error e => .error e
  | .ok tz =>
      let local_seconds := now_utc + tz.utc_offset_minutes * 60
      let minutes_of_day := (Int.fdiv local_seconds 60).emod 1440
      let hour := (Int.fdiv minutes_of_day 60).toNat
      let minute := (minutes_of_day.emod 60).toNat
      .ok (two_digit hour ++ ":" ++ two_digit minute,
           { seconds := now_utc, aware := true })

/-! ## Manual entry point (`action_send_to_n8n`) -/

/-- `action_send_to_n8n` for one campaign: pick the next unsent record,
raising a `UserError` when none is left, and send it.  `.ok logs'` is
the log table after the send; `.error e` is a raised `UserError`
(either "no more records" or one raised inside `_send_lead_to_n8n`). -/
def action_send_to_n8n (env : List Lead) (c : Campaign) (logs : List LogRow)
    (http : Lead → HttpOutcome) (now : Int) : Except String (List LogRow) :=
  match get_next_lead_to_send env c logs with
  | none => .error (s!"No more records to send for campaign {c.name}.")
  | some record =>
      match send_lead_to_n8n c record (http record) now with
      | .error e => .error e
      | .ok (_, final) => .ok (logs ++ [final])

/-! ## Cron entry point (`cron_run_n8n_campaigns`) -/

/-- The ambient data of one cron invocation: the timezone table, the
executing user's `tz` field, the UTC instant, and the outcome each
record's HTTP post would have. -/
structure CronCtx where
  db : List TzInfo
  user_tz : Option String
  now_utc : Int
  http : Lead → HttpOutcome

/-- The send-and-reschedule tail of the per-campaign loop body (lines
317–326 of the source), reached once the window is open and no delay
check intervened.  `_send_lead_to_n8n` raising a `UserError` is caught
by the loop's `except` (nothing changes).  After a completed send the
loop assigns `campaign.next_run_at = now_utc + timedelta(seconds=delay)`;
the assignment goes through the Odoo `Datetime` field conversion, which
raises on the timezone-aware `now_utc` — the `except` swallows it, so
the already-written log row persists while `next_run_at` keeps its old
value.  (Were the value naive, it would be stored.) -/
def cron_tick_send (env : List Lead) (ctx : CronCtx) (c : Campaign)
    (logs : List LogRow) (now_utc : PyDatetime) : Campaign × List LogRow :=
  match get_next_lead_to_send env c logs with
  | none => (c, logs)
  | some record =>
      match send_lead_to_n8n c record (ctx.http record) now_utc.seconds with
      | .error _ => (c, logs)
      | .ok (_, final) =>
          let delay : Int :=
            max (if c.delay_seconds = 0 then 0 else c.delay_seconds) 0
          match odoo_datetime_write (py_datetime_add_seconds now_utc delay) with
          | .error _ => (c, logs ++ [final])
          | .ok t => ({ c with next_run_at := some t }, logs ++ [final])

/-- The body of the per-campaign loop of `cron_run_n8n_campaigns`,
`try/except` included: any raised value (unknown timezone, window
`TypeError`, delay-check `TypeError`, `UserError` from the send, or
the `ValueError` from the `next_run_at` assignment) is caught and
logged, leaving the rest of the iteration's effects in place.

The delay check `if campaign.next_run_at and now_utc < campaign.next_run_at`
first tests the field's truthiness; when the field is set, the
comparison pits the aware `now_utc` against the naive stored value and
raises `TypeError`, which the `except` turns into skipping the
campaign. -/
def cron_step (env : List Lead) (ctx : CronCtx) (c : Campaign)
    (logs : List LogRow) : Campaign × List LogRow :=
  match get_user_local_time ctx.db ctx.user_tz ctx.now_utc with
  | .error _ => (c, logs)
  | .ok (local_time_str, now_utc) =>
      match is_within_schedule c local_time_str with
      | none => (c, logs)
      | some false => (c, logs)
      | some true =>
          match c.next_run_at with
          | some t =>
              match py_datetime_lt now_utc { seconds := t, aware := false } with
              | .error _ => (c, logs)
              | .ok true => (c, logs)
              | .ok false => cron_tick_send env ctx c logs now_utc
          | none => cron_tick_send env ctx c logs now_utc

/-- `cron_run_n8n_campaigns`: process every campaign of the table in
order, the inactive ones filtered out by the
`search([("is_active", "=", True)])`, threading the log table through;
returns the updated campaigns and the final log table. -/
def cron_run (env : List Lead) (ctx : CronCtx) :
    List Campaign → List LogRow → List Campaign × List LogRow
  | [], logs => ([], logs)
  | c :: cs, logs =>
      if c.is_active then
        let p := cron_step env ctx c logs
        let q := cron_run env ctx cs p.2
        (p.1 :: q.1, q.2)
      else
        let q := cron_run env ctx cs logs
        (c :: q.1, q.2)

/-! ## Concrete fixtures -/

/-- A lead with an email address. -/
def lead1 : Lead := { id := 1, name := "Alice Lead", email_from := some "alice@example.com" }

/-- A lead without an email address. -/
def lead2 : Lead := { id := 2, name := "Bob Lead", email_from := none }

/-- A well-configured campaign: webhook set, lead target, trivial
(match-all) filter, no time window, no pending delay. -/
def baseCampaign : Campaign :=
  { id := 7
    name := "Campaign A"
    target_model := some "crm.lead"
    webhook_url := some "http://n8n.example/hook"
    filter_eval := .ok ([] : List (Lead → Bool))
    is_active := true
    start_time_slot := none
    end_time_slot := none
    delay_seconds := 5
    next_run_at := none }

/-- The base campaign with the 09:00–17:00 daytime window. -/
def campaign_0900_1700 : Campaign :=
  { baseCampaign with start_time_slot := some "09:00", end_time_slot := some "17:00" }

/-- The base campaign with the 22:00–02:00 overnight window. -/
def campaign_2200_0200 : Campaign :=
  { baseCampaign with start_time_slot := some "22:00", end_time_slot := some "02:00" }

/-- A two-zone timezone table. -/
def tzTable : List TzInfo :=
  [{ name := "UTC", utc_offset_minutes := 0 },
   { name := "Europe/Berlin", utc_offset_minutes := 60 }]

/-! ## Send-result view and further fixtures -/

/-- The final (written) log row of a send result, when no `UserError`
was raised. -/
def final_of (x : Except String (LogRow × LogRow)) : Option LogRow :=
  x.toOption.map Prod.snd


/-- A campaign whose stored filter string fails to evaluate. -/
def badFilterCampaign : Campaign :=
  { baseCampaign with
    id := 8
    name := "Campaign B"
    filter_eval := .error "SyntaxError: invalid syntax" }

/-- A one-lead table. -/
def envOne : List Lead := [lead1]

/-- Cron context: UTC user, instant 0, webhook answering 200 "ok". -/
def ctxOk : CronCtx :=
  { db := tzTable
    user_tz := none
    now_utc := 0
    http := fun _ => .resp 200 "ok" "OK" "http://n8n.example/hook" }

/-- Cron context whose executing user has an unknown timezone name. -/
def ctxBadTz : CronCtx :=
  { ctxOk with user_tz := some "Mars/Olympus_Mons" }

/-! ## Send-set definitions -/

/-- A two-lead table. -/
def envTwo : List Lead := [lead1, lead2]

/-- A log row recording a failed earlier attempt for lead 1 under
campaign 7. -/
def errorLogRow : LogRow :=
  { campaign_id := 7
    lead_id := some 1
    lead_odoo_id := 1
    name := "Alice Lead"
    email := "alice@example.com"
    status := .error
    http_status := some "500"
    message := some "boom"
    sent_at := some (-100) }

/-- The matching records not excluded by an existing log row of any
status — the candidates `_get_next_lead_to_send` chooses from. -/
def unsent_records (env : List Lead) (c : Campaign) (logs : List LogRow) :
    List Lead :=
  (get_target_records env c).filter
    (fun r => !(sent_lead_ids c logs).contains r.id)

/-- Dispatch over the whole send set: repeatedly pick
`_get_next_lead_to_send` and run `_send_lead_to_n8n`, appending the
written row, until no record is left (the manual button pressed to
exhaustion, equivalently the cron's one-record ticks with the window
open and no pending delay).  `fuel` bounds the rounds. -/
def send_until_exhausted (env : List Lead) (c : Campaign)
    (http : Lead → HttpOutcome) (now : Int) : Nat → List LogRow → List LogRow
  | 0, logs => logs
  | fuel + 1, logs =>
      match get_next_lead_to_send env c logs with
      | none => logs
      | some record =>
          match send_lead_to_n8n c record (http record) now with
          | .error _ => logs
          | .ok (_, final) =>
              send_until_exhausted env c http now fuel (logs ++ [final])

/-! ## Sanity checks -/

example : time_to_minutes (some "22:00") = some 1320 := by decide
example : time_to_minutes (some "02:00") = some 120 := by decide
example : time_to_minutes (some "9:5") = some 545 := by decide
example : time_to_minutes (some "xx:00") = none := by decide
example : time_to_minutes (some "") = none := by decide

/-! ## Window-check lemmas -/

/-- A slot string that parses is not falsy. -/
theorem strFalsy_false_of_parse {s : String} {n : Int}
    (h : time_to_minutes (some s) = some n) : strFalsy (some s) = false := by
  by_cases hs : s = ""
  · rw [time_to_minutes, if_pos hs] at h
    exact absurd h (by simp)
  · simp [strFalsy, hs]

/-- Evaluation of `_is_within_schedule` once the schedule guard fails,
the local time parses, and both effective bounds are known. -/
theorem is_within_schedule_eval (c : Campaign) (loc : String) (n sm em : Int)
    (hguard : (strFalsy c.start_time_slot && strFalsy c.end_time_slot) = false)
    (hn : time_to_minutes (some loc) = some n)
    (hsm : (if !strFalsy c.start_time_slot then time_to_minutes c.start_time_slot
            else some 0) = some sm)
    (hem : (if !strFalsy c.end_time_slot then time_to_minutes c.end_time_slot
            else some (24 * 60 - 1)) = some em) :
    is_within_schedule c loc = some (decide (sm ≤ n ∧ n ≤ em)) := by
  by_cases h1 : sm ≤ n
  · by_cases h2 : n ≤ em
    · simp only [is_within_schedule, hguard, hn, hsm, hem, Bool.false_eq_true,
        if_false, if_pos h1]
      simp [h1, h2]
    · simp only [is_within_schedule, hguard, hn, hsm, hem, Bool.false_eq_true,
        if_false, if_pos h1]
      simp [h1, h2]
  · simp only [is_within_schedule, hguard, hn, hsm, hem, Bool.false_eq_true,
      if_false, if_neg h1]
    simp [h1]

/-- C7: with both window bounds unset the check permits every instant;
with only the start set it permits iff now ≥ start; with only the end
set it permits iff now ≤ end; with both set and start ≤ end it permits
iff start ≤ now ≤ end, both boundaries inclusive — witnessed on the
09:00–17:00 window by 09:00 and 17:00 inside and 08:59 and 17:01
outside. -/
theorem C7_window_policy (c : Campaign) (loc s e : String) (n sm em : Int)
    (hn : time_to_minutes (some loc) = some n)
    (hn0 : 0 ≤ n) (hn1 : n ≤ 24 * 60 - 1)
    (hs : time_to_minutes (some s) = some sm)
    (he : time_to_minutes (some e) = some em) :
    (c.start_time_slot = none → c.end_time_slot = none →
        is_within_schedule c loc = some true)
    ∧ (c.start_time_slot = some s → c.end_time_slot = none →
        is_within_schedule c loc = some (decide (sm ≤ n)))
    ∧ (c.start_time_slot = none → c.end_time_slot = some e →
        is_within_schedule c loc = some (decide (n ≤ em)))
    ∧ (c.start_time_slot = some s → c.end_time_slot = some e → sm ≤ em →
        is_within_schedule c loc = some (decide (sm ≤ n ∧ n ≤ em)))
    ∧ is_within_schedule campaign_0900_1700 "09:00" = some true
    ∧ is_within_schedule campaign_0900_1700 "17:00" = some true
    ∧ is_within_schedule campaign_0900_1700 "08:59" = some false
    ∧ is_within_schedule campaign_0900_1700 "17:01" = some false := by
  have hsf := strFalsy_false_of_parse hs
  have hef := strFalsy_false_of_parse he
  refine ⟨?_, ?_, ?_, ?_, by decide, by decide, by decide, by decide⟩
  · intro h1 h2
    simp [is_within_schedule, h1, h2, strFalsy]
  · intro h1 h2
    have := is_within_schedule_eval c loc n sm (24 * 60 - 1)
      (by rw [h1, h2]; simp [hsf]) hn
      (by rw [h1]; simp only [hsf]; simpa using hs)
      (by rw [h2]; simp [strFalsy])
    rw [this]
    congr 1
    simp only [decide_eq_decide]
    exact ⟨fun hh => hh.1, fun hh => ⟨hh, hn1⟩⟩
  · intro h1 h2
    have := is_within_schedule_eval c loc n 0 em
      (by rw [h1, h2]; simp [hef]) hn
      (by rw [h1]; simp [strFalsy])
      (by rw [h2]; simp only [hef]; simpa using he)
    rw [this]
    congr 1
    simp only [decide_eq_decide]
    exact ⟨fun hh => hh.2, fun hh => ⟨hn0, hh⟩⟩
  · intro h1 h2 _
    exact is_within_schedule_eval c loc n sm em
      (by rw [h1]; simp [hsf])
      hn
      (by rw [h1]; simp only [hsf]; simpa using hs)
      (by rw [h2]; simp only [hef]; simpa using he)

/-- Closed witness for `C7_window_policy` at the 09:00–17:00 window and
local time 10:00 (inside). -/
theorem C7_window_policy_witness :
    is_within_schedule campaign_0900_1700 "10:00" = some true := by
  have h := C7_window_policy campaign_0900_1700 "10:00" "09:00" "17:00" 600 540 1020
    (by decide) (by decide) (by decide) (by decide) (by decide)
  have h4 := h.2.2.2.1 rfl rfl (by decide)
  rw [h4]
  decide

/-- C1 counterexample: in the 22:00–02:00 window the code still tests
`start ≤ now ≤ end`, so 23:00, 00:30 and 01:59 — which the claim places
inside the window — are all rejected. -/
theorem C1_counterexample :
    is_within_schedule campaign_2200_0200 "23:00" = some false
    ∧ is_within_schedule campaign_2200_0200 "00:30" = some false
    ∧ is_within_schedule campaign_2200_0200 "01:59" = some false := by
  decide

/-- C1 amended: when both slots are set with start > end the code keeps
testing `start ≤ now ≤ end`, which no local time satisfies: the window
is empty and dispatch is never permitted (there is no wraparound); in
particular for start=22:00, end=02:00 the instants 10:00 and 21:59 are
outside — as is every other instant. -/
theorem C1_wraparound_window_empty (c : Campaign) (s e loc : String)
    (sm em n : Int)
    (hcs : c.start_time_slot = some s) (hce : c.end_time_slot = some e)
    (hs : time_to_minutes (some s) = some sm)
    (he : time_to_minutes (some e) = some em)
    (hgt : em < sm)
    (hn : time_to_minutes (some loc) = some n) :
    is_within_schedule c loc = some false
    ∧ is_within_schedule campaign_2200_0200 "10:00" = some false
    ∧ is_within_schedule campaign_2200_0200 "21:59" = some false := by
  have hsf := strFalsy_false_of_parse hs
  have hef := strFalsy_false_of_parse he
  have heval := is_within_schedule_eval c loc n sm em
    (by rw [hcs]; simp [hsf])
    hn
    (by rw [hcs]; simp only [hsf]; simpa using hs)
    (by rw [hce]; simp only [hef]; simpa using he)
  refine ⟨?_, by decide, by decide⟩
  rw [heval]
  have : ¬ (sm ≤ n ∧ n ≤ em) := by
    rintro ⟨h1, h2⟩
    omega
  simp [this]

/-- Closed witness for `C1_wraparound_window_empty` on the 22:00–02:00
window at local time 12:00. -/
theorem C1_wraparound_window_empty_witness :
    is_within_schedule campaign_2200_0200 "12:00" = some false := by
  have h := C1_wraparound_window_empty campaign_2200_0200 "22:00" "02:00" "12:00"
    1320 120 720 rfl rfl (by decide) (by decide) (by decide) (by decide)
  exact h.1

/-! ## Send-level lemmas -/

/-- Reduction of `_send_lead_to_n8n` for a well-configured campaign. -/
theorem send_lead_to_n8n_eq (c : Campaign) (record : Lead) (http : HttpOutcome)
    (now : Int) (hw : strFalsy c.webhook_url = false)
    (ht : c.target_model = some "crm.lead") :
    send_lead_to_n8n c record http now
      = .ok (pending_row c record, written_row c record http now) := by
  unfold send_lead_to_n8n
  rw [hw]
  simp [ht]

/-- Inversion: a successful send yields exactly the created row and its
written update. -/
theorem send_ok_inv {c : Campaign} {record : Lead} {http : HttpOutcome}
    {now : Int} {p f : LogRow}
    (h : send_lead_to_n8n c record http now = .ok (p, f)) :
    p = pending_row c record ∧ f = written_row c record http now := by
  unfold send_lead_to_n8n at h
  split at h
  · exact absurd h (by simp)
  · split at h
    · exact absurd h (by simp)
    · simp only [Except.ok.injEq, Prod.mk.injEq] at h
      exact ⟨h.1.symm, h.2.symm⟩

/-- The written status is always `ok` or `error`, never `pending`. -/
theorem attempt_outcome_status (http : HttpOutcome) :
    (attempt_outcome http).1 = Status.ok ∨ (attempt_outcome http).1 = Status.error := by
  cases http with
  | resp code text reason url =>
      cases hr : raise_for_status_error code reason url <;>
        simp [attempt_outcome, hr]
  | exc emsg => simp [attempt_outcome]

/-- `_get_user_local_time` returns the unchanged UTC instant as its
second component. -/
theorem get_user_local_time_ok {db : List TzInfo} {user_tz : Option String}
    {now : Int} {p : String × PyDatetime}
    (h : get_user_local_time db user_tz now = .ok p) :
    p.2 = { seconds := now, aware := true } := by
  simp only [get_user_local_time] at h
  cases hz : pytz_timezone db (if strFalsy user_tz = true then "UTC" else user_tz.getD "") with
  | error e => rw [hz] at h; exact absurd h (by simp)
  | ok tz =>
      rw [hz] at h
      simp only [Except.ok.injEq] at h
      rw [← h]

/-- Branch analysis of the cron body: a campaign tick either changes
nothing (an exception was caught, the window is closed, the delay
check raised or skipped, or nothing is left to send) or appends
exactly one written row — and in that case the campaign record itself
is still unchanged, because the `next_run_at` assignment of a
timezone-aware value raises into the per-campaign `except`. -/
theorem cron_step_spec (env : List Lead) (ctx : CronCtx) (c : Campaign)
    (logs : List LogRow) :
    cron_step env ctx c logs = (c, logs)
    ∨ ∃ loc record,
        get_user_local_time ctx.db ctx.user_tz ctx.now_utc
          = .ok (loc, { seconds := ctx.now_utc, aware := true })
        ∧ is_within_schedule c loc = some true
        ∧ c.next_run_at = none
        ∧ get_next_lead_to_send env c logs = some record
        ∧ cron_step env ctx c logs
            = (c, logs ++ [written_row c record (ctx.http record) ctx.now_utc]) := by
  unfold cron_step
  cases hgu : get_user_local_time ctx.db ctx.user_tz ctx.now_utc with
  | error e => exact .inl rfl
  | ok pr =>
      obtain ⟨loc, nowdt⟩ := pr
      have hnow : nowdt = { seconds := ctx.now_utc, aware := true } :=
        get_user_local_time_ok hgu
      subst hnow
      dsimp only
      cases hws : is_within_schedule c loc with
      | none => exact .inl rfl
      | some b =>
          cases b with
          | false => exact .inl rfl
          | true =>
              dsimp only
              cases hnr : c.next_run_at with
              | some t => exact .inl rfl
              | none =>
                  dsimp only
                  unfold cron_tick_send
                  cases hn : get_next_lead_to_send env c logs with
                  | none => exact .inl rfl
                  | some record =>
                      dsimp only
                      cases hsend : send_lead_to_n8n c record (ctx.http record) ctx.now_utc with
                      | error e => exact .inl rfl
                      | ok pf =>
                          obtain ⟨p, f⟩ := pf
                          obtain ⟨hp, hf⟩ := send_ok_inv hsend
                          subst hf
                          exact .inr ⟨loc, record, rfl, hws, rfl, rfl, rfl⟩

/-! ## C4 — success classification -/

/-- C4 counterexample: a received 304 Not Modified response — not a 2xx
code — still ends the log row with status ok, because
`raise_for_status` raises only for 400–599; the claim says every
received non-2xx code yields error. -/
theorem C4_counterexample :
    (final_of (send_lead_to_n8n baseCampaign lead1
        (HttpOutcome.resp 304 "" "Not Modified" "http://n8n.example/hook") 0)).map
      LogRow.status = some Status.ok
    ∧ ¬ (200 ≤ 304 ∧ 304 < 300) := by
  exact ⟨rfl, by decide⟩

/-- C4 amended: for a received response the log row ends ok iff the
status code lies outside `raise_for_status`'s raising range 400–599:
every code in 400–599 yields error and every other received code
(1xx, 2xx, 3xx, or ≥ 600) yields ok. -/
theorem C4_status_classification (c : Campaign) (r : Lead) (code : Nat)
    (text reason url : String) (now : Int)
    (hw : strFalsy c.webhook_url = false)
    (ht : c.target_model = some "crm.lead") :
    (final_of (send_lead_to_n8n c r (.resp code text reason url) now)).map
      LogRow.status
      = some (if 400 ≤ code ∧ code < 600 then Status.error else Status.ok) := by
  rw [send_lead_to_n8n_eq c r _ now hw ht]
  have hs : (written_row c r (.resp code text reason url) now).status
      = (attempt_outcome (.resp code text reason url)).1 := rfl
  rcases Nat.lt_or_ge code 400 with h4 | h4
  · have hr : raise_for_status_error code reason url = none := by
      unfold raise_for_status_error
      rw [if_neg (by omega), if_neg (by omega)]
    simp [final_of, Except.toOption, hs, attempt_outcome, hr,
      if_neg (by omega : ¬ (400 ≤ code ∧ code < 600))]
  · rcases Nat.lt_or_ge code 600 with h6 | h6
    · have hr : ∃ m, raise_for_status_error code reason url = some m := by
        unfold raise_for_status_error
        rcases Nat.lt_or_ge code 500 with h5 | h5
        · exact ⟨_, by rw [if_pos ⟨h4, h5⟩]⟩
        · exact ⟨_, by rw [if_neg (by omega), if_pos ⟨h5, h6⟩]⟩
      obtain ⟨m, hr⟩ := hr
      simp [final_of, Except.toOption, hs, attempt_outcome, hr,
        if_pos (⟨h4, h6⟩ : 400 ≤ code ∧ code < 600)]
    · have hr : raise_for_status_error code reason url = none := by
        unfold raise_for_status_error
        rw [if_neg (by omega), if_neg (by omega)]
      simp [final_of, Except.toOption, hs, attempt_outcome, hr,
        if_neg (by omega : ¬ (400 ≤ code ∧ code < 600))]

/-- Closed witness for `C4_status_classification` at a 200 response. -/
theorem C4_status_classification_witness :
    (final_of (send_lead_to_n8n baseCampaign lead1
        (HttpOutcome.resp 200 "ok" "OK" "http://n8n.example/hook") 0)).map
      LogRow.status
      = some (if 400 ≤ 200 ∧ 200 < 600 then Status.error else Status.ok) :=
  C4_status_classification baseCampaign lead1 200 "ok" "OK"
    "http://n8n.example/hook" 0 (by decide) rfl

/-! ## C5 — error message contents -/

/-- C5 counterexample: an HTTP 500 response with body "boom" ends with
a message that is the raised HTTPError's text — naming the status code
and url — and in particular does not start with (or equal) "boom": the
body text bound before `raise_for_status` is overwritten in the except
branch. -/
theorem C5_counterexample :
    (final_of (send_lead_to_n8n baseCampaign lead1
        (HttpOutcome.resp 500 "boom" "Internal Server Error"
          "http://n8n.example/hook") 0)).map LogRow.message
      = some (some
          "500 Server Error: Internal Server Error for url: http://n8n.example/hook")
    ∧ (final_of (send_lead_to_n8n baseCampaign lead1
        (HttpOutcome.resp 500 "boom" "Internal Server Error"
          "http://n8n.example/hook") 0)).map
        (fun row => "boom".data.isPrefixOf (row.message.getD "").data)
      = some false := by
  exact ⟨rfl, rfl⟩

/-- C5 amended: an HTTP 500 with body "boom" yields status error and
http_status "500", but the message is the HTTPError text
"500 Server Error: (reason) for url: (url)", not the body; the body
survives into the message — truncated to 1000 characters — only for
non-raising status codes, and exception-derived messages are stored
untruncated (the 1000-character bound applies to response bodies
only). -/
theorem C5_http_error_message (c : Campaign) (r : Lead) (body reason url : String)
    (now : Int) (hw : strFalsy c.webhook_url = false)
    (ht : c.target_model = some "crm.lead") :
    (∃ p f, send_lead_to_n8n c r (.resp 500 body reason url) now = .ok (p, f)
      ∧ f.status = Status.error
      ∧ f.http_status = some "500"
      ∧ f.message = some (s!"500 Server Error: {reason} for url: {url}"))
    ∧ (∀ code text, ¬ (400 ≤ code ∧ code < 600) →
        ∃ p f, send_lead_to_n8n c r (.resp code text reason url) now = .ok (p, f)
          ∧ f.message = some (if text ≠ "" then py_truncate text 1000 else ""))
    ∧ (∀ s : String, (py_truncate s 1000).length ≤ 1000) := by
  refine ⟨⟨_, _, send_lead_to_n8n_eq c r _ now hw ht, rfl, rfl, rfl⟩, ?_, ?_⟩
  · intro code text hcode
    refine ⟨_, _, send_lead_to_n8n_eq c r _ now hw ht, ?_⟩
    have hr : raise_for_status_error code reason url = none := by
      unfold raise_for_status_error
      rw [if_neg (by omega), if_neg (by omega)]
    show (written_row c r (.resp code text reason url) now).message = _
    simp [written_row, attempt_outcome, hr]
  · intro s
    have h1 : (py_truncate s 1000).length = (s.data.take 1000).length := rfl
    rw [h1, List.length_take]
    omega

/-- Closed witness for `C5_http_error_message` at the 500/"boom"
response of the claim. -/
theorem C5_http_error_message_witness :
    ∃ p f, send_lead_to_n8n baseCampaign lead1
        (HttpOutcome.resp 500 "boom" "Internal Server Error"
          "http://n8n.example/hook") 0 = .ok (p, f)
      ∧ f.status = Status.error
      ∧ f.http_status = some "500"
      ∧ f.message = some
          "500 Server Error: Internal Server Error for url: http://n8n.example/hook" := by
  exact (C5_http_error_message baseCampaign lead1 "boom" "Internal Server Error"
    "http://n8n.example/hook" 0 (by decide) rfl).1

/-! ## C8 — exception before a response -/

/-- C8: a send attempt whose HTTP post raises before any response is
received ends with status error, the exception text as its message, no
http_status value, and the completion timestamp set. -/
theorem C8_exception_attempt (c : Campaign) (r : Lead) (emsg : String)
    (now : Int) (hw : strFalsy c.webhook_url = false)
    (ht : c.target_model = some "crm.lead") :
    ∃ p f, send_lead_to_n8n c r (.exc emsg) now = .ok (p, f)
      ∧ f.status = Status.error
      ∧ f.message = some emsg
      ∧ f.http_status = none
      ∧ f.sent_at = some now :=
  ⟨_, _, send_lead_to_n8n_eq c r _ now hw ht, rfl, rfl, rfl, rfl⟩

/-- Closed witness for `C8_exception_attempt` at a timeout exception. -/
theorem C8_exception_attempt_witness :
    ∃ p f, send_lead_to_n8n baseCampaign lead1
        (HttpOutcome.exc "HTTPSConnectionPool: Read timed out. (read timeout=20)") 0
        = .ok (p, f)
      ∧ f.status = Status.error
      ∧ f.message = some "HTTPSConnectionPool: Read timed out. (read timeout=20)"
      ∧ f.http_status = none
      ∧ f.sent_at = some 0 :=
  C8_exception_attempt baseCampaign lead1 _ 0 (by decide) rfl

/-! ## C6 — log row lifecycle -/

/-- C6: every send attempt creates exactly one log row, created with
status pending and no result fields; the one update sets status to ok
or error and the sent timestamp, leaving the identifying snapshot
fields unchanged; consequently a normally completed cron tick never
leaves any of its new rows pending. -/
theorem C6_log_row_lifecycle (c : Campaign) (r : Lead) (http : HttpOutcome)
    (now : Int) (hw : strFalsy c.webhook_url = false)
    (ht : c.target_model = some "crm.lead") :
    (∃ p f, send_lead_to_n8n c r http now = .ok (p, f)
      ∧ p.status = Status.pending ∧ p.http_status = none ∧ p.message = none
      ∧ p.sent_at = none
      ∧ (f.status = Status.ok ∨ f.status = Status.error)
      ∧ f.sent_at = some now
      ∧ f.campaign_id = p.campaign_id ∧ f.lead_id = p.lead_id
      ∧ f.lead_odoo_id = p.lead_odoo_id ∧ f.name = p.name ∧ f.email = p.email)
    ∧ (∀ env ctx logs row, row ∈ (cron_step env ctx c logs).2 →
        row ∈ logs ∨ row.status ≠ Status.pending) := by
  constructor
  · refine ⟨_, _, send_lead_to_n8n_eq c r http now hw ht,
      rfl, rfl, rfl, rfl, ?_, rfl, rfl, rfl, rfl, rfl, rfl⟩
    exact attempt_outcome_status http
  · intro env ctx logs row hrow
    rcases cron_step_spec env ctx c logs with h | ⟨loc, record, _, _, _, _, h⟩
    · rw [h] at hrow
      exact .inl hrow
    · rw [h] at hrow
      rcases List.mem_append.mp hrow with h1 | h2
      · exact .inl h1
      · right
        have hrw : row = written_row c record (ctx.http record) ctx.now_utc := by
          simpa using h2
        have hstat : row.status = (attempt_outcome (ctx.http record)).1 := by
          rw [hrw]; rfl
        rcases attempt_outcome_status (ctx.http record) with ho | ho <;>
          rw [hstat, ho] <;> decide

/-- Closed witness for `C6_log_row_lifecycle` at a 200 response. -/
theorem C6_log_row_lifecycle_witness :
    ∃ p f, send_lead_to_n8n baseCampaign lead1
        (HttpOutcome.resp 200 "ok" "OK" "http://n8n.example/hook") 0 = .ok (p, f)
      ∧ p.status = Status.pending ∧ f.sent_at = some 0 := by
  obtain ⟨p, f, heq, hp, _, _, _, _, hf, _⟩ :=
    (C6_log_row_lifecycle baseCampaign lead1
      (HttpOutcome.resp 200 "ok" "OK" "http://n8n.example/hook") 0 (by decide) rfl).1
  exact ⟨p, f, heq, hp, hf⟩

/-! ## C10 — next_run_at scheduling -/

/-- C10: the scheduled run never actually stores `next_run_at`.  The
loop computes `now_utc + timedelta(seconds=max(delay or 0, 0))`, but
`now_utc` is timezone-aware and the Odoo `Datetime` field rejects
aware values, so the assignment raises `ValueError` into the
per-campaign `except`: every tick leaves the campaign record
unchanged.  At the concrete failing input the tick still sends (one
new log row) while `next_run_at` stays unset, so the configured delay
is never enforced. -/
theorem C10_next_run_at_never_stored :
    (∀ env ctx c logs, (cron_step env ctx c logs).1 = c)
    ∧ ((cron_step envOne ctxOk baseCampaign []).1).next_run_at = none
    ∧ (cron_step envOne ctxOk baseCampaign []).2.length = 1
    ∧ odoo_datetime_write (py_datetime_add_seconds
        { seconds := 0, aware := true } 5)
        = .error "ValueError: Datetime field expects a naive datetime" := by
  refine ⟨?_, rfl, rfl, rfl⟩
  intro env ctx c logs
  rcases cron_step_spec env ctx c logs with h | ⟨_, _, _, _, _, _, h⟩
  · rw [h]
  · rw [h]

/-! ## C9 — timezone resolution -/

/-- C9 counterexample: an unknown timezone name does not fall back to a
default zone — the `pytz.timezone` lookup raises `UnknownTimeZoneError`
and the evaluation fails instead of succeeding. -/
theorem C9_counterexample :
    get_user_local_time tzTable (some "Mars/Olympus_Mons") 0
      = .error "UnknownTimeZoneError: Mars/Olympus_Mons" := by
  rfl

/-- C9 amended: the window evaluation runs in the invoking environment
user's timezone via `user.tz or "UTC"`: an unset (falsy) timezone falls
back to UTC and the evaluation succeeds, but an invalid (unknown)
timezone name is not caught — `pytz.timezone` raises, the evaluation
fails, and the scheduled run's per-campaign handler then skips that
campaign without side effects. -/
theorem C9_timezone_resolution (db : List TzInfo) (tz0 : TzInfo) (now : Int)
    (hutc : db.find? (fun t => t.name == "UTC") = some tz0) :
    (∀ user_tz, strFalsy user_tz = true →
        ∃ s, get_user_local_time db user_tz now
          = .ok (s, { seconds := now, aware := true }))
    ∧ (∀ name, name ≠ "" → db.find? (fun t => t.name == name) = none →
        get_user_local_time db (some name) now
          = .error (s!"UnknownTimeZoneError: {name}"))
    ∧ (∀ env ctx c logs name, ctx.db = db → ctx.user_tz = some name →
        name ≠ "" → db.find? (fun t => t.name == name) = none →
        cron_step env ctx c logs = (c, logs)) := by
  have herr : ∀ (name : String) (n : Int), name ≠ "" →
      db.find? (fun t => t.name == name) = none →
      get_user_local_time db (some name) n
        = .error (s!"UnknownTimeZoneError: {name}") := by
    intro name n hne hnone
    have hfal : strFalsy (some name) = false := by simp [strFalsy, hne]
    simp only [get_user_local_time, hfal, Bool.false_eq_true, if_false,
      Option.getD_some, pytz_timezone, hnone]
  refine ⟨?_, fun name hne hnone => herr name now hne hnone, ?_⟩
  · intro user_tz hfal
    cases hg : get_user_local_time db user_tz now with
    | ok p =>
        obtain ⟨s, t⟩ := p
        have h2 : t = { seconds := now, aware := true } := get_user_local_time_ok hg
        subst h2
        exact ⟨s, rfl⟩
    | error e =>
        exfalso
        simp only [get_user_local_time, hfal, if_true, pytz_timezone, hutc] at hg
        exact Except.noConfusion hg
  · intro env ctx c logs name hdb htz hne hnone
    unfold cron_step
    rw [hdb, htz, herr name ctx.now_utc hne hnone]

/-- Closed witness for `C9_timezone_resolution`: under an unknown
timezone name the cron tick leaves the campaign and the log table
untouched. -/
theorem C9_timezone_resolution_witness :
    cron_step envOne ctxBadTz baseCampaign [] = (baseCampaign, []) :=
  (C9_timezone_resolution tzTable { name := "UTC", utc_offset_minutes := 0 } 0
    rfl).2.2 envOne ctxBadTz baseCampaign [] "Mars/Olympus_Mons" rfl rfl
    (by decide) rfl

/-! ## C2 — malformed filter handling -/

/-- C2 counterexample: a scheduled tick over a campaign with a
malformed filter is not skipped — the filter silently degrades to the
match-all empty domain, the tick sends a record and creates one log
row where the claim requires zero, and the manual path likewise raises
no filter error. -/
theorem C2_counterexample :
    (cron_step envOne ctxOk badFilterCampaign []).2.length = 1
    ∧ action_send_to_n8n envOne badFilterCampaign [] ctxOk.http 0
        = .ok [written_row badFilterCampaign lead1 (ctxOk.http lead1) 0] := by
  exact ⟨rfl, rfl⟩

/-- Log rows of other campaigns are invisible to a campaign's already
sent set. -/
theorem sent_lead_ids_append_foreign (c : Campaign) (logs extra : List LogRow)
    (h : ∀ l ∈ extra, l.campaign_id ≠ c.id) :
    sent_lead_ids c (logs ++ extra) = sent_lead_ids c logs := by
  unfold sent_lead_ids log_ids
  rw [List.filter_append]
  have hx : extra.filter (fun l => l.campaign_id == c.id) = [] := by
    rw [List.filter_eq_nil_iff]
    intro l hl
    simpa using h l hl
  rw [hx, List.append_nil]

/-- Log rows of other campaigns leave next-record selection unchanged. -/
theorem get_next_append_foreign (env : List Lead) (c : Campaign)
    (logs extra : List LogRow) (h : ∀ l ∈ extra, l.campaign_id ≠ c.id) :
    get_next_lead_to_send env c (logs ++ extra)
      = get_next_lead_to_send env c logs := by
  unfold get_next_lead_to_send
  rw [sent_lead_ids_append_foreign c logs extra h]

/-- A cron tick for one campaign is insensitive to log rows belonging
to other campaigns: it updates the campaign identically and appends
the same new rows. -/
theorem cron_step_append_foreign (env : List Lead) (ctx : CronCtx) (c : Campaign)
    (logs extra : List LogRow) (h : ∀ l ∈ extra, l.campaign_id ≠ c.id) :
    (cron_step env ctx c (logs ++ extra)).1 = (cron_step env ctx c logs).1
    ∧ (cron_step env ctx c (logs ++ extra)).2
        = (logs ++ extra) ++ ((cron_step env ctx c logs).2.drop logs.length) := by
  have hnext := get_next_append_foreign env c logs extra h
  unfold cron_step
  cases hgu : get_user_local_time ctx.db ctx.user_tz ctx.now_utc with
  | error e => simp
  | ok pr =>
      obtain ⟨loc, nowdt⟩ := pr
      have hnow : nowdt = { seconds := ctx.now_utc, aware := true } :=
        get_user_local_time_ok hgu
      subst hnow
      dsimp only
      cases hws : is_within_schedule c loc with
      | none => simp
      | some b =>
          cases b with
          | false => simp
          | true =>
              dsimp only
              cases hnr : c.next_run_at with
              | some t => simp [py_datetime_lt]
              | none =>
                  dsimp only
                  unfold cron_tick_send
                  rw [hnext]
                  cases hn : get_next_lead_to_send env c logs with
                  | none => simp
                  | some record =>
                      dsimp only
                      cases hsend : send_lead_to_n8n c record (ctx.http record) ctx.now_utc with
                      | error e => simp
                      | ok pf =>
                          obtain ⟨p, f⟩ := pf
                          dsimp only
                          refine ⟨rfl, ?_⟩
                          show (logs ++ extra) ++ [f]
                              = (logs ++ extra) ++ ((logs ++ [f]).drop logs.length)
                          rw [List.drop_left]

/-- C2 amended: a campaign whose filter expression fails to evaluate
gets the empty domain `[]` silently on every call path; since `[]`
places no condition, the campaign targets every record — manual
invocation raises no filter error and the scheduled run does not skip
the campaign but dispatches it as though unfiltered; and because log
rows of one campaign never influence another campaign's selection, the
other campaigns of the same run are dispatched exactly as they would
be alone. -/
theorem C2_malformed_filter (c : Campaign) (e : String) (env : List Lead)
    (hbad : c.filter_eval = .error e) :
    get_domain c = ([] : List (Lead → Bool))
    ∧ (∀ r, domain_matches (get_domain c) r = true)
    ∧ (c.target_model = some "crm.lead" → get_target_records env c = env)
    ∧ (∀ ctx c2 logs extra, (∀ l ∈ extra, l.campaign_id ≠ c2.id) →
        (cron_step env ctx c2 (logs ++ extra)).1 = (cron_step env ctx c2 logs).1
        ∧ (cron_step env ctx c2 (logs ++ extra)).2
            = (logs ++ extra) ++ ((cron_step env ctx c2 logs).2.drop logs.length)) := by
  have hd : get_domain c = ([] : List (Lead → Bool)) := by
    unfold get_domain
    rw [hbad]
  refine ⟨hd, ?_, ?_, ?_⟩
  · intro r
    rw [hd]
    rfl
  · intro ht
    unfold get_target_records
    rw [ht, hd, if_neg (by decide : ¬ strFalsy (some "crm.lead") = true)]
    unfold search_leads
    apply List.filter_eq_self.mpr
    intro a _
    rfl
  · intro ctx c2 logs extra hfor
    exact cron_step_append_foreign env ctx c2 logs extra hfor

/-- Closed witness for `C2_malformed_filter`: the malformed-filter
campaign targets the whole lead table. -/
theorem C2_malformed_filter_witness :
    get_target_records envOne badFilterCampaign = envOne :=
  ((C2_malformed_filter badFilterCampaign "SyntaxError: invalid syntax" envOne
    (by rfl)).2.2.1) rfl

/-! ## C3 — the send set -/

/-- `find?` is the head of `filter`. -/
theorem find_eq_filter_head {α : Type} (p : α → Bool) (l : List α) :
    l.find? p = (l.filter p).head? := by
  induction l with
  | nil => rfl
  | cons a l ih =>
      by_cases h : p a = true
      · rw [List.find?_cons_of_pos _ h, List.filter_cons_of_pos h, List.head?_cons]
      · rw [List.find?_cons_of_neg _ h, List.filter_cons_of_neg h, ih]

/-- Next-record selection is the head of the unsent list. -/
theorem get_next_eq_head (env : List Lead) (c : Campaign) (logs : List LogRow) :
    get_next_lead_to_send env c logs = (unsent_records env c logs).head? :=
  find_eq_filter_head _ _

/-- The written row belongs to its campaign. -/
theorem written_row_campaign_id (c : Campaign) (r : Lead) (http : HttpOutcome)
    (now : Int) : (written_row c r http now).campaign_id = c.id := rfl

/-- The written row references its lead. -/
theorem written_row_lead_id (c : Campaign) (r : Lead) (http : HttpOutcome)
    (now : Int) : (written_row c r http now).lead_id = some r.id := rfl

/-- Appending the written row extends the campaign's sent set by
exactly the sent lead's id. -/
theorem sent_lead_ids_append_written (c : Campaign) (record : Lead)
    (http : HttpOutcome) (now : Int) (logs : List LogRow) :
    sent_lead_ids c (logs ++ [written_row c record http now])
      = sent_lead_ids c logs ++ [record.id] := by
  unfold sent_lead_ids log_ids
  rw [List.filter_append, List.filterMap_append]
  congr 1
  simp [List.filter, List.filterMap, written_row_campaign_id, written_row_lead_id]

/-- After the head of the unsent list is sent and logged, the unsent
list is exactly its tail (given distinct record ids). -/
theorem unsent_records_after_send (env : List Lead) (c : Campaign)
    (logs : List LogRow) (record : Lead) (http : HttpOutcome) (now : Int)
    (hnodup : ((get_target_records env c).map Lead.id).Nodup)
    (hnext : get_next_lead_to_send env c logs = some record) :
    unsent_records env c (logs ++ [written_row c record http now])
      = (unsent_records env c logs).tail := by
  have hhead : (unsent_records env c logs).head? = some record := by
    rw [← get_next_eq_head]
    exact hnext
  have hexp : unsent_records env c (logs ++ [written_row c record http now])
      = (unsent_records env c logs).filter (fun r => !(r.id == record.id)) := by
    unfold unsent_records
    rw [List.filter_filter]
    apply List.filter_congr
    intro r hr
    rw [sent_lead_ids_append_written]
    by_cases hmem : r.id ∈ sent_lead_ids c logs <;>
      by_cases heq : r.id = record.id <;> simp [hmem, heq]
  have hsub : ((unsent_records env c logs).map Lead.id).Nodup := by
    apply List.Nodup.sublist _ hnodup
    exact List.Sublist.map Lead.id (List.filter_sublist _)
  rw [hexp]
  cases hu : unsent_records env c logs with
  | nil =>
      rw [hu] at hhead
      cases hhead
  | cons a t =>
      rw [hu] at hhead
      have ha : a = record := by simpa using hhead
      subst ha
      rw [hu] at hsub
      simp only [List.map_cons, List.nodup_cons] at hsub
      have hnot : ∀ r ∈ t, r.id ≠ a.id := by
        intro r hrmem heq
        exact hsub.1 (heq ▸ List.mem_map_of_mem Lead.id hrmem)
      simp only [List.filter_cons, beq_self_eq_true, Bool.not_true]
      rw [if_neg (by simp)]
      rw [List.tail_cons]
      apply List.filter_eq_self.mpr
      intro r hrmem
      simp [hnot r hrmem]

/-- Splitting the matching records by already-logged membership. -/
theorem unsent_length_split (env : List Lead) (c : Campaign)
    (logs : List LogRow) :
    ((get_target_records env c).filter
        (fun r => (sent_lead_ids c logs).contains r.id)).length
      + (unsent_records env c logs).length
      = (get_target_records env c).length := by
  unfold unsent_records
  generalize get_target_records env c = l
  induction l with
  | nil => rfl
  | cons a t ih =>
      by_cases hm : ((sent_lead_ids c logs).contains a.id) = true
      · rw [show (a :: t).filter (fun r => (sent_lead_ids c logs).contains r.id)
              = a :: t.filter (fun r => (sent_lead_ids c logs).contains r.id) from
              List.filter_cons_of_pos hm,
            show (a :: t).filter (fun r => !(sent_lead_ids c logs).contains r.id)
              = t.filter (fun r => !(sent_lead_ids c logs).contains r.id) from
              List.filter_cons_of_neg (by simpa using hm)]
        simp only [List.length_cons]
        omega
      · rw [show (a :: t).filter (fun r => (sent_lead_ids c logs).contains r.id)
              = t.filter (fun r => (sent_lead_ids c logs).contains r.id) from
              List.filter_cons_of_neg hm,
            show (a :: t).filter (fun r => !(sent_lead_ids c logs).contains r.id)
              = a :: t.filter (fun r => !(sent_lead_ids c logs).contains r.id) from
              List.filter_cons_of_pos (by simpa using hm)]
        simp only [List.length_cons]
        omega

/-- Dispatching until exhaustion appends one row per unsent record. -/
theorem send_until_exhausted_length (env : List Lead) (c : Campaign)
    (http : Lead → HttpOutcome) (now : Int)
    (hw : strFalsy c.webhook_url = false)
    (ht : c.target_model = some "crm.lead")
    (hnodup : ((get_target_records env c).map Lead.id).Nodup) :
    ∀ fuel logs, (unsent_records env c logs).length ≤ fuel →
      (send_until_exhausted env c http now fuel logs).length
        = logs.length + (unsent_records env c logs).length := by
  intro fuel
  induction fuel with
  | zero =>
      intro logs hle
      have h0 : (unsent_records env c logs).length = 0 := Nat.le_zero.mp hle
      rw [send_until_exhausted]
      omega
  | succ fuel ih =>
      intro logs hle
      rw [send_until_exhausted]
      cases hn : get_next_lead_to_send env c logs with
      | none =>
          cases hu : unsent_records env c logs with
          | cons a t =>
              exfalso
              have hh := get_next_eq_head env c logs
              rw [hn, hu] at hh
              cases hh
          | nil =>
              simp
      | some record =>
          dsimp only
          rw [send_lead_to_n8n_eq c record (http record) now hw ht]
          dsimp only
          have hne : unsent_records env c logs ≠ [] := by
            intro hnil
            have hh := get_next_eq_head env c logs
            rw [hn, hnil] at hh
            cases hh
          have hpos : 1 ≤ (unsent_records env c logs).length := by
            cases hu : unsent_records env c logs with
            | nil => exact absurd hu hne
            | cons a t => simp only [List.length_cons]; omega
          have hafter := unsent_records_after_send env c logs record (http record)
            now hnodup hn
          have hlen : (unsent_records env c
                (logs ++ [written_row c record (http record) now])).length
              = (unsent_records env c logs).length - 1 := by
            rw [hafter, List.length_tail]
          have hrec := ih (logs ++ [written_row c record (http record) now])
            (by omega)
          rw [hrec, List.length_append]
          simp only [List.length_singleton]
          omega

/-- C3 counterexample: lead 1 matches and its only log row has status
error; the claim says it is still eligible (and predicts N−K = 1−0 = 1
new rows), but the sent-set check ignores log status, so no next
record is found and a scheduled tick creates no new row. -/
theorem C3_counterexample :
    get_next_lead_to_send envOne baseCampaign [errorLogRow] = none
    ∧ (cron_step envOne ctxOk baseCampaign [errorLogRow]).2 = [errorLogRow] := by
  exact ⟨rfl, rfl⟩

/-- C3 amended: the code's send set ignores log status — a record with
ANY log row for the campaign (ok, error or pending alike) is excluded,
so a record whose only logs are error or pending is NOT eligible
again.  `_get_next_lead_to_send` returns only matching records with no
log row at all, and with N matching records of which L already carry a
log row of any status, dispatching until exhaustion creates exactly
N − L new log rows. -/
theorem C3_send_set (env : List Lead) (c : Campaign) (logs : List LogRow)
    (http : Lead → HttpOutcome) (now : Int) (fuel : Nat)
    (hw : strFalsy c.webhook_url = false)
    (ht : c.target_model = some "crm.lead")
    (hnodup : ((get_target_records env c).map Lead.id).Nodup)
    (hfuel : (unsent_records env c logs).length ≤ fuel) :
    (∀ r, get_next_lead_to_send env c logs = some r →
        r ∈ get_target_records env c
        ∧ (sent_lead_ids c logs).contains r.id = false)
    ∧ (∀ r, (sent_lead_ids c logs).contains r.id = true →
        get_next_lead_to_send env c logs ≠ some r)
    ∧ (send_until_exhausted env c http now fuel logs).length
        = logs.length + ((get_target_records env c).length
            - ((get_target_records env c).filter
                (fun r => (sent_lead_ids c logs).contains r.id)).length) := by
  refine ⟨?_, ?_, ?_⟩
  · intro r hr
    unfold get_next_lead_to_send at hr
    refine ⟨List.mem_of_find?_eq_some hr, ?_⟩
    have hp := List.find?_some hr
    simpa using hp
  · intro r hcon hr
    unfold get_next_lead_to_send at hr
    have hp := List.find?_some hr
    rw [hcon] at hp
    simp at hp
  · have hsplit := unsent_length_split env c logs
    have hmain := send_until_exhausted_length env c http now hw ht hnodup fuel
      logs hfuel
    rw [hmain]
    omega

/-- Closed witness for `C3_send_set`: two matching records, none
logged, give exactly 2 − 0 new rows. -/
theorem C3_send_set_witness :
    (send_until_exhausted envTwo baseCampaign ctxOk.http 0 2 []).length
      = ([] : List LogRow).length
        + ((get_target_records envTwo baseCampaign).length
            - ((get_target_records envTwo baseCampaign).filter
                (fun r => (sent_lead_ids baseCampaign
                    ([] : List LogRow)).contains r.id)).length) :=
  (C3_send_set envTwo baseCampaign [] ctxOk.http 0 2 (by decide) rfl
    (by decide) (by decide)).2.2

end N8nLeadExport
